import Mathlib

/-
Shallow embedding of the Reality-Filter Go service.

Conventions of the embedding:
- Go `float64` values are modelled as exact rationals (ℚ): the scoring code
  uses only +, -, *, /, abs, min, max on literals, which this captures with
  real-number semantics.
- `time.Time` is modelled as a natural-number timestamp passed explicitly to
  each operation (`now`); `time.Time.IsZero` becomes `= 0`.
- Go string-typed enums (`ArticleStatus`, `FlagType`, `EntityType`) stay
  strings, with the same constants.
- Effectful service methods are modelled as pure functions over an explicit
  environment holding the outcome of every external call, and they return an
  event trace recording the external calls made, in order, plus the log lines
  printed.
-/

namespace RealityFilter

/-- Timestamps stand in for `time.Time`; `0` is the zero time. -/
abbrev Timestamp := Nat

/-- Embeds `domain.ArticleStatus`, a string type in the source. -/
abbrev ArticleStatus := String

def ArticleStatusPending : ArticleStatus := "PENDING"

def ArticleStatusAnalyzed : ArticleStatus := "ANALYZED"

def ArticleStatusFlagged : ArticleStatus := "FLAGGED"

def ArticleStatusVerified : ArticleStatus := "VERIFIED"

def ArticleStatusRejected : ArticleStatus := "REJECTED"

/-- Embeds `domain.Entity`: a named entity found in the content. -/
structure Entity where
  type : String
  value : String
deriving DecidableEq, Repr

/-- Embeds `domain.Flag`: an issue detected in the article. -/
structure Flag where
  type : String
  confidence : ℚ
  details : String
  detectedAt : Timestamp
  detectedBy : String
deriving DecidableEq, Repr

/-- Embeds `domain.ArticleMetadata`. -/
structure ArticleMetadata where
  entities : List Entity
  sentiment : ℚ
  language : String
  wordCount : Nat
  readingTime : Nat
deriving DecidableEq, Repr

/-- Embeds `domain.Article`, the aggregate root. IDs are strings (the UUID rendered). -/
structure Article where
  id : String
  title : String
  content : String
  source : String
  author : String
  tags : List String
  createdAt : Timestamp
  updatedAt : Timestamp
  score : ℚ
  flags : List Flag
  status : ArticleStatus
  metaData : ArticleMetadata
deriving DecidableEq, Repr

/-- Embeds `Article.AddFlag`: appends the flag, re-checks the flagged condition and
stamps `UpdatedAt`. The source calls `time.Now()` separately for `DetectedAt`
and `UpdatedAt`; both calls are modelled by the same `now`. -/
def Article.addFlag (a : Article) (flagType : String) (confidence : ℚ)
    (details detectedBy : String) (now : Timestamp) : Article :=
  let flag : Flag :=
    { type := flagType, confidence := confidence, details := details
      detectedAt := now, detectedBy := detectedBy }
  let flags := a.flags ++ [flag]
  let status := if flags.length > 0 then ArticleStatusFlagged else a.status
  { a with flags := flags, status := status, updatedAt := now }

/-- Embeds `Article.UpdateScore`. -/
def Article.updateScore (a : Article) (score : ℚ) (now : Timestamp) : Article :=
  { a with score := score, updatedAt := now }

/-- Embeds `Article.UpdateStatus`. -/
def Article.updateStatus (a : Article) (status : ArticleStatus) (now : Timestamp) : Article :=
  { a with status := status, updatedAt := now }

/-- Embeds `Article.UpdateMetadata`. -/
def Article.updateMetadata (a : Article) (metadata : ArticleMetadata) (now : Timestamp) : Article :=
  { a with metaData := metadata, updatedAt := now }

/-- The helper `abs` from `application` (source file of `calculateCredibilityScore`). -/
def fabs (x : ℚ) : ℚ := if x < 0 then -x else x

/-- The helper `max` from `application`. -/
def fmax (x y : ℚ) : ℚ := if x > y then x else y

/-- The helper `min` from `application`. -/
def fmin (x y : ℚ) : ℚ := if x < y then x else y

/-- Embeds `calculateCredibilityScore` from the application service, line for line. -/
def calculateCredibilityScore (sourceScore sentiment : ℚ) (numFlags : ℤ) : ℚ :=
  let sentimentScore := 1.0 - fabs (sentiment - 0.5) * 2
  let flagPenalty := fmax 0.0 (1.0 - (numFlags : ℚ) / 5.0)
  let score := sourceScore * 0.4 + sentimentScore * 0.2 + flagPenalty * 0.4
  fmax 0.0 (fmin 1.0 score)

/-- The scoring formula exactly as the specification words it:
`0.4·r + 0.2·(1-|s-0.5|·2) + 0.4·max(0, 1-n/5)`, clamped to [0,1]. -/
def specCredibilityScore (r s : ℚ) (n : ℤ) : ℚ :=
  max 0 (min 1 (0.4 * r + 0.2 * (1 - |s - 0.5| * 2) + 0.4 * max 0 (1 - (n : ℚ) / 5)))

/-- Outcomes of the external calls `AnalyzeArticle` can make, one field per
port method it uses. `Except.error e` means that call would fail with
message `e`; `Except.ok v` means it would return `v`. -/
structure AnalysisEnv where
  sentiment : Except String ℚ
  entities : Except String (List Entity)
  biasFlags : Except String (List Flag)
  factFlags : Except String (List Flag)
  sourceScore : Except String ℚ
  updateResult : Except String Unit
  cacheSetResult : Except String Unit
  publishAnalyzedResult : Except String Unit
  publishFlaggedResult : Except String Unit

/-- One external call made by `AnalyzeArticle`, recorded in order. The write
events carry the article value passed to the port. -/
inductive AnalysisEvent
  | analyzeSentiment
  | extractEntities
  | detectBias
  | checkFacts
  | getSourceReputation
  | repoUpdate (a : Article)
  | cacheSet (a : Article)
  | publishAnalyzed (a : Article)
  | publishFlagged (a : Article)
deriving DecidableEq, Repr

/-- True for the five calls to the pluggable `ContentAnalyzer`/`FactChecker`
interfaces, false for repository/cache/event-publisher calls. -/
def AnalysisEvent.isPortCall : AnalysisEvent → Bool
  | .analyzeSentiment => true
  | .extractEntities => true
  | .detectBias => true
  | .checkFacts => true
  | .getSourceReputation => true
  | _ => false

/-- What a run of `AnalyzeArticle` produces: the returned error value, the
article as the caller sees it afterwards (Go mutates it through a pointer),
the ordered trace of external calls, and the lines printed by `fmt.Printf`. -/
structure AnalyzeOutcome where
  result : Except String Unit
  article : Article
  events : List AnalysisEvent
  logs : List String

/-- Embeds `ArticleAnalyzerService.AnalyzeArticle`, step for step. Each external
call's outcome is read from `env`; `now` stands for `time.Now()`. -/
def analyzeArticle (env : AnalysisEnv) (article : Article) (now : Timestamp) : AnalyzeOutcome :=
  match env.sentiment with
  | Except.error err =>
      ⟨Except.error ("failed to analyze sentiment: " ++ err), article,
        [AnalysisEvent.analyzeSentiment], []⟩
  | Except.ok sentiment =>
  match env.entities with
  | Except.error err =>
      ⟨Except.error ("failed to extract entities: " ++ err), article,
        [AnalysisEvent.analyzeSentiment, AnalysisEvent.extractEntities], []⟩
  | Except.ok entities =>
  match env.biasFlags with
  | Except.error err =>
      ⟨Except.error ("failed to detect bias: " ++ err), article,
        [AnalysisEvent.analyzeSentiment, AnalysisEvent.extractEntities,
         AnalysisEvent.detectBias], []⟩
  | Except.ok biasFlags =>
  match env.factFlags with
  | Except.error err =>
      ⟨Except.error ("failed to check facts: " ++ err), article,
        [AnalysisEvent.analyzeSentiment, AnalysisEvent.extractEntities,
         AnalysisEvent.detectBias, AnalysisEvent.checkFacts], []⟩
  | Except.ok factFlags =>
  match env.sourceScore with
  | Except.error err =>
      ⟨Except.error ("failed to get source reputation: " ++ err), article,
        [AnalysisEvent.analyzeSentiment, AnalysisEvent.extractEntities,
         AnalysisEvent.detectBias, AnalysisEvent.checkFacts,
         AnalysisEvent.getSourceReputation], []⟩
  | Except.ok sourceScore =>
    let a1 := article.updateMetadata
      { entities := entities, sentiment := sentiment, language := "en",
        wordCount := article.content.utf8ByteSize,
        readingTime := article.content.utf8ByteSize / 200 } now
    let a2 := biasFlags.foldl
      (fun a f => a.addFlag f.type f.confidence f.details "bias_detector" now) a1
    let a3 := factFlags.foldl
      (fun a f => a.addFlag f.type f.confidence f.details "fact_checker" now) a2
    let credibilityScore := calculateCredibilityScore sourceScore sentiment (a3.flags.length : ℤ)
    let a4 := a3.updateScore credibilityScore now
    let a5 := if a4.flags.length > 0 then a4.updateStatus ArticleStatusFlagged now
              else a4.updateStatus ArticleStatusAnalyzed now
    let callEvents := [AnalysisEvent.analyzeSentiment, AnalysisEvent.extractEntities,
      AnalysisEvent.detectBias, AnalysisEvent.checkFacts, AnalysisEvent.getSourceReputation]
    match env.updateResult with
    | Except.error err =>
        ⟨Except.error ("failed to update article: " ++ err), a5,
          callEvents ++ [AnalysisEvent.repoUpdate a5], []⟩
    | Except.ok _ =>
      let cacheLogs := match env.cacheSetResult with
        | Except.error err => ["failed to update cache: " ++ err]
        | Except.ok _ => []
      let pubLogs := match env.publishAnalyzedResult with
        | Except.error err => ["failed to publish article analyzed event: " ++ err]
        | Except.ok _ => []
      let flaggedEvents :=
        if a5.status = ArticleStatusFlagged then [AnalysisEvent.publishFlagged a5] else []
      let flaggedLogs :=
        if a5.status = ArticleStatusFlagged then
          match env.publishFlaggedResult with
          | Except.error err => ["failed to publish article flagged event: " ++ err]
          | Except.ok _ => []
        else []
      ⟨Except.ok (), a5,
        callEvents ++ [AnalysisEvent.repoUpdate a5, AnalysisEvent.cacheSet a5,
          AnalysisEvent.publishAnalyzed a5] ++ flaggedEvents,
        cacheLogs ++ pubLogs ++ flaggedLogs⟩

lemma fabs_eq_abs (x : ℚ) : fabs x = |x| := by
  unfold fabs
  rcases lt_or_le x 0 with h | h
  · simp [h, abs_of_neg h]
  · simp [not_lt.mpr h, abs_of_nonneg h]

lemma fmax_eq_max (x y : ℚ) : fmax x y = max x y := by
  unfold fmax
  rcases le_or_lt x y with h | h
  · simp [not_lt.mpr h, max_eq_right h]
  · simp [h, max_eq_left h.le]

lemma fmin_eq_min (x y : ℚ) : fmin x y = min x y := by
  unfold fmin
  rcases lt_or_le x y with h | h
  · simp [h, min_eq_left h.le]
  · simp [not_lt.mpr h, min_eq_right h]

/-- C1 -- For every source reputation `r`, sentiment `s`, and flag count `n`,
`calculateCredibilityScore r s n` equals
`0.4*r + 0.2*(1 - |s - 0.5|*2) + 0.4*max(0, 1 - n/5)` clamped to `[0,1]`. -/
theorem calculateCredibilityScore_eq_spec_formula (r s : ℚ) (n : ℤ) :
    calculateCredibilityScore r s n = specCredibilityScore r s n := by
  unfold calculateCredibilityScore specCredibilityScore
  rw [fabs_eq_abs, fmax_eq_max, fmax_eq_max, fmin_eq_min]
  have h1 : (1.0 : ℚ) = 1 := by norm_num
  have h04 : (0.4 : ℚ) = 4/10 := by norm_num
  have h02 : (0.2 : ℚ) = 2/10 := by norm_num
  have h05 : (0.5 : ℚ) = 1/2 := by norm_num
  have h50 : (5.0 : ℚ) = 5 := by norm_num
  have h00 : (0.0 : ℚ) = 0 := by norm_num
  rw [h1, h04, h02, h05, h50, h00]
  congr 1
  congr 1
  ring

/-- C4 -- For every source reputation, sentiment and flag count, including
values outside `[0,1]` and negative flag counts, the result of
`calculateCredibilityScore` lies in `[0,1]`. -/
theorem calculateCredibilityScore_mem_unit_interval (r s : ℚ) (n : ℤ) :
    0 ≤ calculateCredibilityScore r s n ∧ calculateCredibilityScore r s n ≤ 1 := by
  have h0 : (0.0 : ℚ) = 0 := by norm_num
  have h1 : (1.0 : ℚ) = 1 := by norm_num
  simp only [calculateCredibilityScore, fmax_eq_max, fmin_eq_min, h0, h1]
  refine ⟨le_max_left 0 _, max_le (by norm_num) (min_le_left 1 _)⟩

lemma clamp_mono {x y : ℚ} (h : x ≤ y) :
    fmax 0.0 (fmin 1.0 x) ≤ fmax 0.0 (fmin 1.0 y) := by
  rw [fmax_eq_max, fmax_eq_max, fmin_eq_min, fmin_eq_min]
  exact max_le_max le_rfl (min_le_min le_rfl h)

lemma fabs_nonneg (x : ℚ) : 0 ≤ fabs x := by
  unfold fabs
  split_ifs with h
  · linarith
  · linarith

/-- C7 -- For fixed reputation and sentiment the score is non-increasing in
the flag count; for fixed sentiment and flag count it is non-decreasing in
the source reputation; and for fixed reputation and flag count it is maximal
at sentiment `0.5`. -/
theorem calculateCredibilityScore_monotone (r r' s : ℚ) (n m : ℤ)
    (hnm : n ≤ m) (hrr : r ≤ r') :
    calculateCredibilityScore r s m ≤ calculateCredibilityScore r s n ∧
    calculateCredibilityScore r s n ≤ calculateCredibilityScore r' s n ∧
    calculateCredibilityScore r s n ≤ calculateCredibilityScore r 0.5 n := by
  have hcast : (n : ℚ) ≤ (m : ℚ) := by exact_mod_cast hnm
  have hflag : fmax 0.0 (1.0 - (m : ℚ) / 5.0) ≤ fmax 0.0 (1.0 - (n : ℚ) / 5.0) := by
    rw [fmax_eq_max, fmax_eq_max]
    exact max_le_max le_rfl (by linarith)
  have hsent : fabs (0.5 - 0.5 : ℚ) = 0 := by norm_num [fabs]
  have hsent2 : 0 ≤ fabs (s - 0.5) := fabs_nonneg _
  refine ⟨?_, ?_, ?_⟩
  · unfold calculateCredibilityScore
    exact clamp_mono (by nlinarith [hflag])
  · unfold calculateCredibilityScore
    exact clamp_mono (by nlinarith)
  · unfold calculateCredibilityScore
    exact clamp_mono (by rw [hsent]; nlinarith)

/-- Closed instance of `calculateCredibilityScore_monotone` at concrete inputs. -/
theorem calculateCredibilityScore_monotone_witness :
    (0 : ℤ) ≤ 7 ∧ (0 : ℚ) ≤ 1 ∧
    (calculateCredibilityScore 0 2 7 ≤ calculateCredibilityScore 0 2 0 ∧
     calculateCredibilityScore 0 2 0 ≤ calculateCredibilityScore 1 2 0 ∧
     calculateCredibilityScore 0 2 0 ≤ calculateCredibilityScore 0 0.5 0) :=
  ⟨by decide, zero_le_one, calculateCredibilityScore_monotone 0 1 2 0 7 (by decide) zero_le_one⟩

/-- Sample metadata for concrete instances. -/
def sampleMetadata : ArticleMetadata :=
  { entities := [], sentiment := 0, language := "", wordCount := 0, readingTime := 0 }

/-- A freshly created pending article, as `domain.NewArticle` builds it. -/
def sampleArticle : Article :=
  { id := "article-1", title := "t", content := "some content", source := "src"
    author := "au", tags := [], createdAt := 0, updatedAt := 0, score := 0
    flags := [], status := ArticleStatusPending, metaData := sampleMetadata }

/-- A concrete detected flag. -/
def sampleFlag : Flag :=
  { type := "CLICKBAIT", confidence := 0.9, details := "d", detectedAt := 0
    detectedBy := "bias_detector" }

/-- An environment where every external call succeeds, mirroring the mock
adapters wired in `main` (sentiment 0.5, reputation 0.8, no flags). -/
def okEnv : AnalysisEnv :=
  { sentiment := Except.ok 0.5, entities := Except.ok [], biasFlags := Except.ok []
    factFlags := Except.ok [], sourceScore := Except.ok 0.8
    updateResult := Except.ok (), cacheSetResult := Except.ok ()
    publishAnalyzedResult := Except.ok (), publishFlaggedResult := Except.ok () }

/-- An environment where the very first analysis call fails. -/
def failEnv : AnalysisEnv :=
  { okEnv with sentiment := Except.error "boom" }

/-- C9 -- If any of the five upstream analysis calls fails, `AnalyzeArticle`
returns an error, the article is unchanged, and every event in the trace is
an analyzer/checker call: nothing was persisted, cached or published. -/
theorem analyzeArticle_error_leaves_article_unchanged (env : AnalysisEnv) (a : Article)
    (now : Timestamp)
    (h : env.sentiment.isOk = false ∨ env.entities.isOk = false ∨
         env.biasFlags.isOk = false ∨ env.factFlags.isOk = false ∨
         env.sourceScore.isOk = false) :
    (∃ msg, (analyzeArticle env a now).result = Except.error msg) ∧
    (analyzeArticle env a now).article = a ∧
    ∀ ev ∈ (analyzeArticle env a now).events, ev.isPortCall = true := by
  rcases env with ⟨es, ee, eb, ef, er, eu, ec, epa, epf⟩
  cases es <;> cases ee <;> cases eb <;> cases ef <;> cases er <;>
    simp_all [analyzeArticle, AnalysisEvent.isPortCall, Except.isOk, Except.toBool]

/-- Closed instance of `analyzeArticle_error_leaves_article_unchanged`. -/
theorem analyzeArticle_error_unchanged_witness :
    (failEnv.sentiment.isOk = false ∨ failEnv.entities.isOk = false ∨
     failEnv.biasFlags.isOk = false ∨ failEnv.factFlags.isOk = false ∨
     failEnv.sourceScore.isOk = false) ∧
    ((∃ msg, (analyzeArticle failEnv sampleArticle 0).result = Except.error msg) ∧
     (analyzeArticle failEnv sampleArticle 0).article = sampleArticle ∧
     ∀ ev ∈ (analyzeArticle failEnv sampleArticle 0).events, ev.isPortCall = true) :=
  ⟨Or.inl rfl,
   analyzeArticle_error_leaves_article_unchanged failEnv sampleArticle 0 (Or.inl rfl)⟩

/-- C3 -- After the five analysis calls succeed: if the repository `Update`
succeeds, `AnalyzeArticle` returns nil even when the cache `Set` or either
publish call fails, and each such failure is logged; if `Update` fails, its
error is returned. -/
theorem analyzeArticle_update_error_returned (env : AnalysisEnv) (a : Article)
    (now : Timestamp) (s : ℚ) (ents : List Entity) (bf ff : List Flag) (r : ℚ)
    (h1 : env.sentiment = Except.ok s) (h2 : env.entities = Except.ok ents)
    (h3 : env.biasFlags = Except.ok bf) (h4 : env.factFlags = Except.ok ff)
    (h5 : env.sourceScore = Except.ok r) :
    (env.updateResult = Except.ok () →
      (analyzeArticle env a now).result = Except.ok () ∧
      (∀ e, env.cacheSetResult = Except.error e →
        ("failed to update cache: " ++ e) ∈ (analyzeArticle env a now).logs) ∧
      (∀ e, env.publishAnalyzedResult = Except.error e →
        ("failed to publish article analyzed event: " ++ e) ∈ (analyzeArticle env a now).logs) ∧
      (∀ e, env.publishFlaggedResult = Except.error e →
        (analyzeArticle env a now).article.status = ArticleStatusFlagged →
        ("failed to publish article flagged event: " ++ e) ∈ (analyzeArticle env a now).logs)) ∧
    (∀ e, env.updateResult = Except.error e →
      (analyzeArticle env a now).result = Except.error ("failed to update article: " ++ e)) := by
  simp only [analyzeArticle, h1, h2, h3, h4, h5]
  refine ⟨?_, ?_⟩
  · intro hu
    simp only [hu]
    refine ⟨trivial, ?_, ?_, ?_⟩
    · intro e he
      simp [he]
    · intro e he
      simp [he]
    · intro e he hst
      simp [he, hst]
  · intro e he
    simp [he]

/-- An environment where analysis succeeds but the cache write and the
analyzed-event publish fail. -/
def failingSideEffectsEnv : AnalysisEnv :=
  { okEnv with cacheSetResult := Except.error "down"
               publishAnalyzedResult := Except.error "down" }

/-- Closed instance of `analyzeArticle_update_error_returned`: all five
analysis calls succeed while the cache write and a publish fail. -/
theorem analyzeArticle_update_error_returned_witness :
    failingSideEffectsEnv.sentiment = Except.ok 0.5 ∧
    ((failingSideEffectsEnv.updateResult = Except.ok () →
        (analyzeArticle failingSideEffectsEnv sampleArticle 0).result = Except.ok () ∧
        (∀ e, failingSideEffectsEnv.cacheSetResult = Except.error e →
          ("failed to update cache: " ++ e) ∈
            (analyzeArticle failingSideEffectsEnv sampleArticle 0).logs) ∧
        (∀ e, failingSideEffectsEnv.publishAnalyzedResult = Except.error e →
          ("failed to publish article analyzed event: " ++ e) ∈
            (analyzeArticle failingSideEffectsEnv sampleArticle 0).logs) ∧
        (∀ e, failingSideEffectsEnv.publishFlaggedResult = Except.error e →
          (analyzeArticle failingSideEffectsEnv sampleArticle 0).article.status =
            ArticleStatusFlagged →
          ("failed to publish article flagged event: " ++ e) ∈
            (analyzeArticle failingSideEffectsEnv sampleArticle 0).logs)) ∧
      (∀ e, failingSideEffectsEnv.updateResult = Except.error e →
        (analyzeArticle failingSideEffectsEnv sampleArticle 0).result =
          Except.error ("failed to update article: " ++ e))) :=
  ⟨rfl, analyzeArticle_update_error_returned failingSideEffectsEnv sampleArticle 0
    0.5 [] [] [] 0.8 rfl rfl rfl rfl rfl⟩

/-- C5 counterexample -- on a run where every call succeeds, `AnalyzeArticle`
makes five analyzer/checker calls (three on `ContentAnalyzer`, two on
`FactChecker`), not four. -/
theorem analyzeArticle_port_call_count_ne_four :
    (analyzeArticle okEnv sampleArticle 0).events.countP AnalysisEvent.isPortCall = 5 ∧
    (analyzeArticle okEnv sampleArticle 0).events.countP AnalysisEvent.isPortCall ≠ 4 := by
  constructor <;> decide

/-- C5 amended -- `AnalyzeArticle` makes exactly five sequential calls to the
analyzer/checker interfaces (AnalyzeSentiment, ExtractEntities, DetectBias,
CheckFacts, GetSourceReputation) in that order, then computes the credibility
score, then writes through the repository and then the cache, in that order. -/
theorem analyzeArticle_call_order (env : AnalysisEnv) (a : Article) (now : Timestamp)
    (s : ℚ) (ents : List Entity) (bf ff : List Flag) (r : ℚ)
    (h1 : env.sentiment = Except.ok s) (h2 : env.entities = Except.ok ents)
    (h3 : env.biasFlags = Except.ok bf) (h4 : env.factFlags = Except.ok ff)
    (h5 : env.sourceScore = Except.ok r) (h6 : env.updateResult = Except.ok ()) :
    ∃ a' rest, (analyzeArticle env a now).events =
      [AnalysisEvent.analyzeSentiment, AnalysisEvent.extractEntities,
       AnalysisEvent.detectBias, AnalysisEvent.checkFacts,
       AnalysisEvent.getSourceReputation] ++
      [AnalysisEvent.repoUpdate a', AnalysisEvent.cacheSet a',
       AnalysisEvent.publishAnalyzed a'] ++ rest ∧
      (analyzeArticle env a now).article = a' ∧
      a'.score = calculateCredibilityScore r s (a'.flags.length : ℤ) := by
  simp only [analyzeArticle, h1, h2, h3, h4, h5, h6]
  refine ⟨_, _, rfl, rfl, ?_⟩
  split <;> simp [Article.updateStatus, Article.updateScore]

/-- Closed instance of `analyzeArticle_call_order` at the all-ok environment. -/
theorem analyzeArticle_call_order_witness :
    okEnv.sentiment = Except.ok 0.5 ∧ okEnv.updateResult = Except.ok () ∧
    (∃ a' rest, (analyzeArticle okEnv sampleArticle 0).events =
      [AnalysisEvent.analyzeSentiment, AnalysisEvent.extractEntities,
       AnalysisEvent.detectBias, AnalysisEvent.checkFacts,
       AnalysisEvent.getSourceReputation] ++
      [AnalysisEvent.repoUpdate a', AnalysisEvent.cacheSet a',
       AnalysisEvent.publishAnalyzed a'] ++ rest ∧
      (analyzeArticle okEnv sampleArticle 0).article = a' ∧
      a'.score = calculateCredibilityScore 0.8 0.5 (a'.flags.length : ℤ)) :=
  ⟨rfl, rfl, analyzeArticle_call_order okEnv sampleArticle 0 0.5 [] [] [] 0.8
    rfl rfl rfl rfl rfl rfl⟩

/-- Mutating operations on an article: the domain mutators that do not take a
status argument, plus a full `AnalyzeArticle` run. `UpdateStatus` (and the
service method `UpdateArticleStatus` built on it) is deliberately outside this
list: it sets any caller-chosen status unconditionally. -/
inductive ArticleOp
  | addFlag (flagType : String) (confidence : ℚ) (details detectedBy : String) (now : Timestamp)
  | updateScore (score : ℚ) (now : Timestamp)
  | updateMetadata (m : ArticleMetadata) (now : Timestamp)
  | analyze (env : AnalysisEnv) (now : Timestamp)

/-- Apply one operation to an article; for `analyze` this is the article as
the caller sees it after the call, error or not. -/
def ArticleOp.apply (a : Article) : ArticleOp → Article
  | .addFlag t c d b now => a.addFlag t c d b now
  | .updateScore s now => a.updateScore s now
  | .updateMetadata m now => a.updateMetadata m now
  | .analyze env now => (analyzeArticle env a now).article

/-- The invariant of the claim: a non-empty flag list forces status FLAGGED. -/
def flagInvariant (a : Article) : Prop :=
  a.flags ≠ [] → a.status = ArticleStatusFlagged

/-- A concrete article holding one flag, with the matching FLAGGED status. -/
def flaggedArticle : Article :=
  { sampleArticle with flags := [sampleFlag], status := ArticleStatusFlagged }

/-- C2 counterexample -- `UpdateStatus` (as called by the service method
`UpdateArticleStatus`) sets any status unconditionally: applied to an article
with one flag it yields a non-empty flag list with status VERIFIED, so the
claimed invariant fails under a sequence containing `UpdateStatus`. -/
theorem updateStatus_breaks_flag_invariant :
    flagInvariant flaggedArticle ∧
    (flaggedArticle.updateStatus ArticleStatusVerified 1).flags ≠ [] ∧
    (flaggedArticle.updateStatus ArticleStatusVerified 1).status ≠ ArticleStatusFlagged := by
  refine ⟨fun _ => rfl, ?_, ?_⟩ <;> decide

lemma statusUpdate_invariant (a4 : Article) (now : Timestamp) :
    flagInvariant (if a4.flags.length > 0 then a4.updateStatus ArticleStatusFlagged now
                   else a4.updateStatus ArticleStatusAnalyzed now) := by
  intro hne
  by_cases hc : a4.flags.length > 0
  · simp [hc, Article.updateStatus]
  · exfalso
    simp [hc, Article.updateStatus] at hne
    exact hc (List.length_pos.mpr hne)

lemma analyzeArticle_flagInvariant (env : AnalysisEnv) (a : Article) (now : Timestamp)
    (h : flagInvariant a) : flagInvariant ((analyzeArticle env a now).article) := by
  cases hs : env.sentiment <;> cases he : env.entities <;> cases hb : env.biasFlags <;>
    cases hf : env.factFlags <;> cases hr : env.sourceScore <;>
      simp only [analyzeArticle, hs, he, hb, hf, hr] <;>
        first
          | exact h
          | cases hu : env.updateResult <;> simp only [hu] <;>
              exact statusUpdate_invariant _ now

lemma ArticleOp.apply_flagInvariant (a : Article) (op : ArticleOp)
    (h : flagInvariant a) : flagInvariant (op.apply a) := by
  cases op with
  | addFlag t c d b now =>
      intro _
      simp [ArticleOp.apply, Article.addFlag]
  | updateScore s now =>
      intro hne
      simp only [ArticleOp.apply, Article.updateScore] at hne ⊢
      exact h hne
  | updateMetadata m now =>
      intro hne
      simp only [ArticleOp.apply, Article.updateMetadata] at hne ⊢
      exact h hne
  | analyze env now => exact analyzeArticle_flagInvariant env a now h

/-- C2 amended -- for every article satisfying the invariant and every
sequence of AddFlag, UpdateScore, UpdateMetadata and AnalyzeArticle
operations, whenever the flag list is non-empty the status is FLAGGED;
UpdateStatus/UpdateArticleStatus are excluded because they set any status
unconditionally. -/
theorem flag_invariant_preserved (ops : List ArticleOp) (a : Article)
    (h : flagInvariant a) : flagInvariant (ops.foldl ArticleOp.apply a) := by
  induction ops generalizing a with
  | nil => exact h
  | cons op ops ih => exact ih _ (ArticleOp.apply_flagInvariant a op h)

/-- Closed instance of `flag_invariant_preserved` on a two-step sequence. -/
theorem flag_invariant_preserved_witness :
    flagInvariant sampleArticle ∧
    flagInvariant ([ArticleOp.addFlag "CLICKBAIT" 0.9 "d" "bias_detector" 1,
      ArticleOp.updateScore 0.3 2].foldl ArticleOp.apply sampleArticle) :=
  ⟨fun hne => absurd rfl hne,
   flag_invariant_preserved
     [ArticleOp.addFlag "CLICKBAIT" 0.9 "d" "bias_detector" 1,
      ArticleOp.updateScore 0.3 2] sampleArticle (fun hne => absurd rfl hne)⟩

/-- A document/key-value store keyed by string. Transport failures of the
drivers are outside the model; lookup misses are inside it. -/
abbrev Store := List (String × Article)

/-- Insert-or-replace under a key (`UpdateOne` with upsert, or redis `SET`). -/
def storePut (store : Store) (key : String) (a : Article) : Store :=
  if store.any (fun p => p.1 == key) then
    store.map (fun p => if p.1 == key then (key, a) else p)
  else store ++ [(key, a)]

/-- Embeds `mongodb.ArticleRepository.Save`: stamps `UpdatedAt`, backfills a zero
`CreatedAt` from it, and upserts; returns the store and the mutated article. -/
def mongoSave (store : Store) (article : Article) (now : Timestamp) : Store × Article :=
  let article := { article with
    updatedAt := now
    createdAt := if article.createdAt = 0 then now else article.createdAt }
  (storePut store article.id article, article)

/-- Embeds `mongodb.ArticleRepository.FindByID`: the `mongo.ErrNoDocuments` branch
turns a missing document into `ok none` (nil article, nil error). -/
def mongoFindByID (store : Store) (id : String) : Except String (Option Article) :=
  Except.ok (List.lookup id store)

/-- Embeds `mongodb.ArticleRepository.Update`: stamps `UpdatedAt` and updates the
matching document; zero matched documents yield `mongo.ErrNoDocuments`. -/
def mongoUpdate (store : Store) (article : Article) (now : Timestamp) :
    Except String Store × Article :=
  let article := { article with updatedAt := now }
  (if store.any (fun p => p.1 == article.id) then Except.ok (storePut store article.id article)
   else Except.error "mongo: no documents in result", article)

/-- C6 -- every mutating operation (`AddFlag`, `UpdateScore`, `UpdateStatus`,
`UpdateMetadata`, repository `Save` and `Update`) sets the article's
`UpdatedAt` to the time of the mutation. -/
theorem mutations_stamp_updatedAt (a : Article) (t : String) (c : ℚ) (d b : String)
    (q : ℚ) (st : ArticleStatus) (m : ArticleMetadata) (store : Store) (now : Timestamp) :
    (a.addFlag t c d b now).updatedAt = now ∧
    (a.updateScore q now).updatedAt = now ∧
    (a.updateStatus st now).updatedAt = now ∧
    (a.updateMetadata m now).updatedAt = now ∧
    (mongoSave store a now).2.updatedAt = now ∧
    (mongoUpdate store a now).2.updatedAt = now :=
  ⟨rfl, rfl, rfl, rfl, rfl, rfl⟩

/-- Key scheme of the redis article cache. -/
def cacheKey (id : String) : String := "article:" ++ id

/-- Embeds `redis.ArticleCache.Set`: store the (marshalled) article under
`article:<id>`; marshalling a well-formed article cannot fail. -/
def redisSet (store : Store) (article : Article) : Store :=
  storePut store (cacheKey article.id) article

/-- Embeds `redis.ArticleCache.Get`: a missing key is `redis.Nil` and yields
`ok none` (nil article, nil error). -/
def redisGet (store : Store) (id : String) : Except String (Option Article) :=
  Except.ok (List.lookup (cacheKey id) store)

/-- What `GetAnalysisResult` produces: the returned (article, error) pair,
whether the repository was consulted, and the cache contents afterwards. -/
structure GetAnalysisOutcome where
  result : Except String (Option Article)
  repoConsulted : Bool
  cacheStore : Store

/-- Embeds `ArticleAnalyzerService.GetAnalysisResult` composed with the wired redis
cache and MongoDB repository: any nil-error cache answer is returned as-is;
only a cache error falls through to the repository. (A nil article reaching
`cache.Set` on the fallback path would dereference nil in Go; that path is
unreachable with this cache model, which never returns an error.) -/
def getAnalysisResult (cs : Store) (ms : Store) (id : String) : GetAnalysisOutcome :=
  match redisGet cs id with
  | Except.ok article => ⟨Except.ok article, false, cs⟩
  | Except.error _ =>
    match mongoFindByID ms id with
    | Except.error e => ⟨Except.error ("failed to find article: " ++ e), true, cs⟩
    | Except.ok article =>
      ⟨Except.ok article, true,
        match article with
        | some art => redisSet cs art
        | none => cs⟩

/-- C8 -- when the cache holds no entry for the ID, `Get` returns a nil
article with a nil error, and `GetAnalysisResult` therefore returns
(nil, nil) without consulting the repository. -/
theorem cache_miss_returns_nil_nil (cs ms : Store) (id : String)
    (h : List.lookup (cacheKey id) cs = none) :
    redisGet cs id = Except.ok none ∧
    (getAnalysisResult cs ms id).result = Except.ok none ∧
    (getAnalysisResult cs ms id).repoConsulted = false := by
  have hg : redisGet cs id = Except.ok none := by simp [redisGet, h]
  refine ⟨hg, ?_, ?_⟩ <;> simp [getAnalysisResult, hg]

/-- Closed instance of `cache_miss_returns_nil_nil` on an empty cache. -/
theorem cache_miss_returns_nil_nil_witness :
    List.lookup (cacheKey "article-1") ([] : Store) = none ∧
    (redisGet [] "article-1" = Except.ok none ∧
     (getAnalysisResult [] [] "article-1").result = Except.ok none ∧
     (getAnalysisResult [] [] "article-1").repoConsulted = false) :=
  ⟨rfl, cache_miss_returns_nil_nil [] [] "article-1" rfl⟩

/-- The body of an HTTP response: a JSON-rendered (possibly nil, hence
`null`) article, or an error object. -/
inductive ResponseBody
  | json (a : Option Article)
  | errorJson (msg : String)
deriving DecidableEq, Repr

/-- An HTTP response: status code and body. -/
structure HttpResponse where
  status : Nat
  body : ResponseBody
deriving DecidableEq, Repr

/-- Embeds `Handler.GetArticle` composed with `ArticleAnalyzerService.GetArticle`,
which passes straight through to `FindByID`: an error becomes 404 with an
error body, otherwise the (possibly nil) article is rendered with 200. -/
def handlerGetArticle (ms : Store) (id : String) : HttpResponse :=
  match mongoFindByID ms id with
  | Except.error _ => ⟨404, ResponseBody.errorJson "Article not found"⟩
  | Except.ok a => ⟨200, ResponseBody.json a⟩

/-- C10 -- for an ID with no document in the store, `FindByID` returns a nil
article with a nil error, so the `GetArticle` handler responds 200 with a
null body rather than 404. -/
theorem unknown_id_yields_200_null (ms : Store) (id : String)
    (h : List.lookup id ms = none) :
    mongoFindByID ms id = Except.ok none ∧
    handlerGetArticle ms id = ⟨200, ResponseBody.json none⟩ := by
  constructor <;> simp [mongoFindByID, handlerGetArticle, h]

/-- Closed instance of `unknown_id_yields_200_null` on an empty store. -/
theorem unknown_id_yields_200_null_witness :
    List.lookup "missing" ([] : Store) = none ∧
    (mongoFindByID [] "missing" = Except.ok none ∧
     handlerGetArticle [] "missing" = ⟨200, ResponseBody.json none⟩) :=
  ⟨rfl, unknown_id_yields_200_null [] "missing" rfl⟩

end RealityFilter
